import Mathlib

/-!
# go-ecommerce: seeding, bootstrap and the home handler

A shallow embedding of `main.go` (`Seed`, `main`) and of
`handlers/home/home.go` (`GetHomeHandler`).

Side effects are made explicit: the seed routines act on a database state
and every invocation is recorded in a trace, the bootstrap records the
framework calls it performs, and the handler threads a request context that
records the response it builds and returns the `error` of the Go handler.
-/

set_option autoImplicit false

namespace GoEcommerce

/-! ## Seeder (`main.go`, `Seed`) -/

/-- The ten model packages whose `Seed` function is listed in `main.go`. -/
inductive Model
  | user
  | company
  | vendor_application
  | product
  | product_review
  | flagged_review
  | order
  | order_product
  | address
  | payment
deriving DecidableEq, Repr

/-- The slice literal `models` of `Seed` (`main.go` lines 27-38), in source order. -/
def models : List Model :=
  [ Model.user,
    Model.company,
    Model.vendor_application,
    Model.product,
    Model.product_review,
    Model.flagged_review,
    Model.order,
    Model.order_product,
    Model.address,
    Model.payment ]

/-- The process state seen by the seed routines: the database they write to and
the trace of seed routines invoked so far (oldest first). -/
structure World (σ : Type) where
  db : σ
  invoked : List Model
deriving DecidableEq, Repr

/-- A seed routine `func() error`: it acts on the database and returns `nil`
(`none`) or an error. The routines live in the model packages and are taken as a
parameter, one per model. -/
abbrev modelType (σ ε : Type) := σ → Option ε × σ

/-- The call `m()` of line 40: runs the routine of model `m` on the database and
records the invocation. -/
def callSeed {σ ε : Type} (impl : Model → modelType σ ε) (m : Model) (w : World σ) :
    Option ε × World σ :=
  ((impl m w.db).1, ⟨(impl m w.db).2, w.invoked ++ [m]⟩)

/-- The `for _, m := range models` loop of `Seed` (lines 39-44), with the named
result `err` carried along: `err = m()`, and an early `return` when it is not `nil`;
line 45 returns `err` when the slice is exhausted. -/
def seedLoop {σ ε : Type} (impl : Model → modelType σ ε) :
    List Model → Option ε → World σ → Option ε × World σ
  | [], err, w => (err, w)
  | m :: ms, _, w =>
    match callSeed impl m w with
    | (some e, w1) => (some e, w1)
    | (none, w1) => seedLoop impl ms none w1

/-- `Seed` of `main.go`: the named result `err` starts as `nil`. -/
def Seed {σ ε : Type} (impl : Model → modelType σ ε) (w : World σ) : Option ε × World σ :=
  seedLoop impl models none w

/-- The database after running the routines of `ms` one after the other. -/
def runAll {σ ε : Type} (impl : Model → modelType σ ε) (ms : List Model) (db : σ) : σ :=
  ms.foldl (fun s m => (impl m s).2) db

/-! ## Application bootstrap (`main.go`, `main`) -/

/-- A handler named in a route registration: the imported package and the
identifier selected from it. -/
structure HandlerRef where
  pkg : String
  name : String
deriving DecidableEq, Repr

/-- The expression `home.IndexHandler` of line 66 (import of line 11). -/
def homeIndexHandler : HandlerRef := ⟨"handlers/home", "IndexHandler"⟩

/-- The expression `productRoutes.IndexHandler` of line 67 (import of line 12). -/
def productIndexHandler : HandlerRef := ⟨"handlers/product", "IndexHandler"⟩

/-- The function declarations of package `home` (`handlers/home/home.go`): the
file declares `GetHomeHandler` and nothing else. -/
def homeDecls : List String := ["GetHomeHandler"]

/-- The steps `main` performs on the framework and the process, in program order. -/
inductive Step (ε : Type)
  | New
  | Use (middleware : String)
  | Seed
  | Panic (e : ε)
  | Static (path root : String)
  | Get (path : String) (handler : HandlerRef)
  | Listen (addr : String)
deriving DecidableEq, Repr

/-- `os.Getenv`: the value of the variable, or the empty string when it is unset. -/
def Getenv (env : String → Option String) (key : String) : String :=
  (env key).getD ""

/-- `main` of `main.go`. The environment, the seed routines and the initial
database are parameters; the result is the sequence of steps performed and the
final process state. `panic(err)` ends the run; `app.Listen` is the last step
(`log.Fatal` only wraps the value it returns). -/
def main {σ ε : Type} (env : String → Option String) (impl : Model → modelType σ ε)
    (w : World σ) : List (Step ε) × World σ :=
  let port := Getenv env "PORT"
  let port := if port = "" then "3000" else port
  let boot : List (Step ε) := [Step.New, Step.Use "logger"]
  match Seed impl w with
  | (some err, w1) => (boot ++ [Step.Seed, Step.Panic err], w1)
  | (none, w1) =>
    (boot ++ [Step.Seed,
              Step.Static "/" "resources",
              Step.Get "/" homeIndexHandler,
              Step.Get "/products" productIndexHandler,
              Step.Listen (":" ++ port)], w1)

/-- The addresses passed to `app.Listen` in a run. -/
def listenCalls {ε : Type} : List (Step ε) → List String
  | [] => []
  | Step.Listen addr :: t => addr :: listenCalls t
  | _ :: t => listenCalls t

/-- The route table of a run: the `app.Get` registrations, in order. -/
def routes {ε : Type} : List (Step ε) → List (String × String × HandlerRef)
  | [] => []
  | Step.Get path h :: t => ("GET", path, h) :: routes t
  | _ :: t => routes t

/-- The number of calls of `Seed` in a run. -/
def seedCalls {ε : Type} : List (Step ε) → Nat
  | [] => 0
  | Step.Seed :: t => seedCalls t + 1
  | _ :: t => seedCalls t

/-! ## Home handler (`handlers/home/home.go`, `GetHomeHandler`) -/

/-- A value stored in a `fiber.Map`: the handler stores strings and the product
list. -/
inductive Value (α : Type)
  | str (s : String)
  | products (ps : List α)
deriving DecidableEq, Repr

/-- A `fiber.Map` literal: its entries, in source order. -/
abbrev FiberMap (α : Type) := List (String × Value α)

/-- The response body held by the request context: unset, the JSON encoding of a
map, or an HTML document produced by the view engine. -/
inductive Body (α : Type)
  | empty
  | json (data : FiberMap α)
  | html (document : String)
deriving DecidableEq, Repr

/-- The view engine of the application (`Views` of `fiber.Config`, set in `main.go`
line 54 to `engine.GetEngine()`): given the template name, the bound context and the
layouts it yields the rendered document or fails. The engine is a parameter. -/
abbrev Views (α ρ : Type) := String → FiberMap α → List String → Except ρ String

/-- The calls a handler makes on its collaborators. -/
inductive Call (α : Type)
  | GetProducts (page pageSize : String)
  | SetStatusCode (code : Nat)
  | JSON (data : FiberMap α)
  | Render (name : String) (bind : FiberMap α) (layouts : List String)
deriving DecidableEq, Repr

/-- The request context `*fiber.Ctx`: the query arguments of the request, the
response under construction and the calls made so far (oldest first). -/
structure Ctx (α : Type) where
  queryArgs : List (String × String)
  statusCode : Nat
  contentType : String
  body : Body α
  calls : List (Call α)
deriving DecidableEq, Repr

/-- The context of a fresh request: status 200 and an empty body. -/
def Ctx.ofQuery {α : Type} (q : List (String × String)) : Ctx α :=
  ⟨q, 200, "", Body.empty, []⟩

/-- Fiber's `defaultString`: the default is returned when the value has length 0. -/
def defaultString (value : String) (defaultValue : String) : String :=
  if value.length = 0 then defaultValue else value

/-- Fiber's `c.Query(key, defaultValue)`: the first query argument named `key`
(the empty string when there is none), passed through `defaultString`. -/
def Ctx.Query {α : Type} (c : Ctx α) (key defaultValue : String) : String :=
  defaultString ((c.queryArgs.lookup key).getD "") defaultValue

/-- `c.Context().SetStatusCode(code)`. -/
def Ctx.SetStatusCode {α : Type} (c : Ctx α) (code : Nat) : Ctx α :=
  ⟨c.queryArgs, code, c.contentType, c.body, c.calls ++ [Call.SetStatusCode code]⟩

/-- `c.JSON(data)`: the body becomes the JSON encoding of `data`, the content type
`application/json`, and the call returns `nil`. -/
def Ctx.JSON {α ρ : Type} (c : Ctx α) (data : FiberMap α) : Option ρ × Ctx α :=
  (none,
    ⟨c.queryArgs, c.statusCode, "application/json", Body.json data, c.calls ++ [Call.JSON data]⟩)

/-- `c.Render(name, bind, layouts...)`: the view engine is run on the arguments. When
it fails, `Render` returns the error and leaves the response as it was; when it
yields a document, the content type becomes `text/html; charset=utf-8`, the body
becomes the document, and `Render` returns `nil`. -/
def Ctx.Render {α ρ : Type} (views : Views α ρ) (c : Ctx α) (name : String)
    (bind : FiberMap α) (layouts : List String) : Option ρ × Ctx α :=
  match views name bind layouts with
  | Except.error e =>
    (some e,
      ⟨c.queryArgs, c.statusCode, c.contentType, c.body,
        c.calls ++ [Call.Render name bind layouts]⟩)
  | Except.ok document =>
    (none,
      ⟨c.queryArgs, c.statusCode, "text/html; charset=utf-8", Body.html document,
        c.calls ++ [Call.Render name bind layouts]⟩)

/-- Records the call of the catalog accessor. -/
def Ctx.logGetProducts {α : Type} (c : Ctx α) (page pageSize : String) : Ctx α :=
  ⟨c.queryArgs, c.statusCode, c.contentType, c.body, c.calls ++ [Call.GetProducts page pageSize]⟩

/-- `GetHomeHandler` of `home.go`. The view engine and the catalog accessor
`product.GetProducts` are parameters; the result is the `error` the handler returns
(the one of `c.JSON` or of `c.Render`) and the request context at that point. What
the framework does with a returned error happens after the handler and is not part
of it. -/
def GetHomeHandler {α ε ρ : Type} (views : Views α ρ)
    (GetProducts : String → String → Except ε (List α)) (c : Ctx α) : Option ρ × Ctx α :=
  let page := c.Query "page" "1"
  let pageSize := c.Query "page_size" "10"
  match GetProducts page pageSize with
  | Except.error _ =>
    ((c.logGetProducts page pageSize).SetStatusCode 500).JSON
      [("error", Value.str "Failed to fetch products.")]
  | Except.ok products =>
    (c.logGetProducts page pageSize).Render views "index"
      [("Title", Value.str "Hello, World!"), ("Products", Value.products products)]
      ["layouts/master"]

/-- The arguments of the accessor calls among `calls`. -/
def accessorCalls {α : Type} : List (Call α) → List (String × String)
  | [] => []
  | Call.GetProducts p n :: t => (p, n) :: accessorCalls t
  | _ :: t => accessorCalls t

/-! ## Catalog accessor -/

/-- Modelled from the spec: the failures of `product.GetProducts` (package
`models/product` is not among the sources), a parsing error or a storage error. -/
inductive AccessorError
  | parse
  | storage
deriving DecidableEq, Repr

/-- Modelled from the spec: the value of a decimal digit, for the parsing of `page`
and `pageSize` (package `models/product` is not among the sources). -/
def digitValue (ch : Char) : Option Nat :=
  if ch.isDigit then some (ch.toNat - 48) else none

/-- Modelled from the spec: reads a run of decimal digits, most significant first
(package `models/product` is not among the sources). -/
def parseDigits : List Char → Nat → Option Nat
  | [], acc => some acc
  | ch :: cs, acc =>
    match digitValue ch with
    | none => none
    | some d => parseDigits cs (10 * acc + d)

/-- Modelled from the spec: the parsing of `page` and `pageSize` inside
`product.GetProducts` (package `models/product` is not among the sources). A
non-empty run of decimal digits is read as an integer; anything else is rejected. -/
def parseNat (s : String) : Option Nat :=
  match s.data with
  | [] => none
  | cs => parseDigits cs 0

/-- Modelled from the spec: `product.GetProducts` (package `models/product` is not
among the sources). `page` and `pageSize` are parsed to positive integers, a
non-numeric or non-positive value being rejected with a parsing error; an
unreachable store (`none`) is an error; the result is the catalog offset by
`(page - 1) * pageSize` and cut to `pageSize` products. -/
def GetProducts {α : Type} (store : Option (List α)) (page pageSize : String) :
    Except AccessorError (List α) :=
  match parseNat page, parseNat pageSize with
  | some p, some n =>
    if p = 0 ∨ n = 0 then Except.error AccessorError.parse
    else
      match store with
      | none => Except.error AccessorError.storage
      | some catalog => Except.ok ((catalog.drop ((p - 1) * n)).take n)
  | _, _ => Except.error AccessorError.parse

/-! ### Lemmas on the seeding loop -/

theorem seedLoop_all_ok {σ ε : Type} (impl : Model → modelType σ ε)
    (hok : ∀ m s, (impl m s).1 = none) (ms : List Model) (w : World σ) :
    seedLoop impl ms none w = (none, ⟨runAll impl ms w.db, w.invoked ++ ms⟩) := by
  induction ms generalizing w with
  | nil => simp [seedLoop, runAll]
  | cons m ms ih =>
    simp only [seedLoop, callSeed, hok m w.db]
    rw [ih]
    simp [runAll]

theorem seedLoop_first_error {σ ε : Type} (impl : Model → modelType σ ε)
    (pre post : List Model) (m : Model) (e : ε) (w : World σ) (err : Option ε)
    (hpre : ∀ x ∈ pre, ∀ s, (impl x s).1 = none)
    (hm : ∀ s, (impl m s).1 = some e) :
    seedLoop impl (pre ++ m :: post) err w
      = (some e, ⟨runAll impl (pre ++ [m]) w.db, w.invoked ++ (pre ++ [m])⟩) := by
  induction pre generalizing w err with
  | nil => simp [seedLoop, callSeed, hm w.db, runAll]
  | cons x xs ih =>
    have hx : (impl x w.db).1 = none := hpre x (List.mem_cons_self _ _) w.db
    have step : seedLoop impl (x :: (xs ++ m :: post)) err w
        = seedLoop impl (xs ++ m :: post) none ⟨(impl x w.db).2, w.invoked ++ [x]⟩ := by
      simp only [seedLoop, callSeed, hx]
    rw [List.cons_append, step, ih _ _ (fun y hy => hpre y (List.mem_cons_of_mem _ hy))]
    simp [runAll]


theorem models_split (i : Nat) (m : Model) (hi : models[i]? = some m) :
    models = models.take i ++ m :: models.drop (i + 1)
      ∧ models.take (i + 1) = models.take i ++ [m] := by
  obtain ⟨hlt, hget⟩ := List.getElem?_eq_some.mp hi
  constructor
  · conv_lhs => rw [← List.take_append_drop i models]
    rw [List.drop_eq_getElem_cons hlt, hget]
  · rw [List.take_succ, hi]
    rfl

/-! ## The seeder -/

/-- C1: `Seed` is fail-fast. If the seeder at position `i` of the list (counted from
0) returns the error `e` and every seeder before it returns no error, then `Seed`
returns exactly `e`, the seeders invoked are the first `i + 1` of the list, in list
order, each exactly once, none of the later seeders is invoked, and the database is
the one left by those `i + 1` routines run in order. -/
theorem Seed_fail_fast {σ ε : Type} (impl : Model → modelType σ ε) (w : World σ)
    (i : Nat) (m : Model) (e : ε)
    (hi : models[i]? = some m)
    (hfirst : ∀ x ∈ models.take i, ∀ s, (impl x s).1 = none)
    (hfail : ∀ s, (impl m s).1 = some e) :
    (Seed impl w).1 = some e
      ∧ (Seed impl w).2.invoked = w.invoked ++ models.take (i + 1)
      ∧ (∀ x ∈ models.take (i + 1), (models.take (i + 1)).count x = 1)
      ∧ (∀ x ∈ models.drop (i + 1), (models.take (i + 1)).count x = 0)
      ∧ (Seed impl w).2.db = runAll impl (models.take (i + 1)) w.db := by
  obtain ⟨hsplit, htake⟩ := models_split i m hi
  have hrun := seedLoop_first_error impl (models.take i) (models.drop (i + 1)) m e w none
    hfirst hfail
  rw [← hsplit, ← htake] at hrun
  have hlt : i < 10 := (List.getElem?_eq_some.mp hi).1
  refine ⟨by rw [Seed, hrun], by rw [Seed, hrun], ?_, ?_, by rw [Seed, hrun]⟩
  · interval_cases i <;> decide
  · interval_cases i <;> decide

/-- C2: when every seed routine succeeds, `Seed` returns no error, the seeders
invoked are exactly the ten of the list, each once, in the order User, Company,
VendorApplication, Product, ProductReview, FlaggedReview, Order, OrderProduct,
Address, Payment, and each routine runs on the database left by the one before it. -/
theorem Seed_all_succeed {σ ε : Type} (impl : Model → modelType σ ε) (w : World σ)
    (hok : ∀ m s, (impl m s).1 = none) :
    (Seed impl w).1 = none
      ∧ (Seed impl w).2.invoked = w.invoked ++
          [Model.user, Model.company, Model.vendor_application, Model.product,
           Model.product_review, Model.flagged_review, Model.order, Model.order_product,
           Model.address, Model.payment]
      ∧ (Seed impl w).2.db =
          (impl Model.payment (impl Model.address (impl Model.order_product
            (impl Model.order (impl Model.flagged_review (impl Model.product_review
              (impl Model.product (impl Model.vendor_application (impl Model.company
                (impl Model.user w.db).2).2).2).2).2).2).2).2).2).2 := by
  have hrun := seedLoop_all_ok impl hok models w
  refine ⟨by rw [Seed, hrun], by rw [Seed, hrun]; rfl, by rw [Seed, hrun]; rfl⟩

/-- The seeder at position 3 (Product) fails first: User, Company,
VendorApplication and Product are invoked, nothing after. -/
theorem Seed_fail_fast_witness :
    (Seed (fun (m : Model) (s : Nat) =>
        (if m = Model.product then some "boom" else none, s + 1)) ⟨0, []⟩).1 = some "boom"
      ∧ (Seed (fun (m : Model) (s : Nat) =>
        (if m = Model.product then some "boom" else none, s + 1)) ⟨0, []⟩).2.invoked
          = [Model.user, Model.company, Model.vendor_application, Model.product] := by
  have h := Seed_fail_fast
    (fun (m : Model) (s : Nat) => (if m = Model.product then some "boom" else none, s + 1))
    ⟨0, []⟩ 3 Model.product "boom" (by decide)
    (by
      intro x hx s
      simp only [models, List.take_succ_cons, List.take_zero, List.mem_cons,
        List.mem_singleton, List.not_mem_nil, or_false] at hx
      rcases hx with rfl | rfl | rfl <;> rfl)
    (fun _ => rfl)
  exact ⟨h.1, h.2.1⟩

/-- Ten routines that all succeed and each add one row. -/
theorem Seed_all_succeed_witness :
    (Seed (ε := String) (fun (_ : Model) (s : Nat) => (none, s + 1)) ⟨0, []⟩).1 = none
      ∧ (Seed (ε := String) (fun (_ : Model) (s : Nat) => (none, s + 1)) ⟨0, []⟩).2.db = 10 := by
  have h := Seed_all_succeed (ε := String) (fun (_ : Model) (s : Nat) => (none, s + 1))
    ⟨0, []⟩ (by intro m s; rfl)
  exact ⟨h.1, h.2.2⟩

/-! ## The home handler -/

theorem defaultString_eq (value defaultValue : String) :
    defaultString value defaultValue = if value = "" then defaultValue else value := by
  unfold defaultString
  by_cases h : value = ""
  · subst h
    rfl
  · have hlen : value.length ≠ 0 := by
      intro h0
      apply h
      apply String.ext
      exact List.length_eq_zero.mp h0
    rw [if_neg hlen, if_neg h]

/-- C3: when the catalog accessor returns an error, the handler sets status 500 and
writes the JSON body whose single key `error` has the value
`Failed to fetch products.`; besides the accessor call it makes exactly the calls
`SetStatusCode(500)` and `JSON`, so no template is rendered, and it returns `nil`. -/
theorem GetHomeHandler_accessor_error {α ε ρ : Type} (views : Views α ρ)
    (GetProducts : String → String → Except ε (List α)) (c : Ctx α) (e : ε)
    (herr : GetProducts (c.Query "page" "1") (c.Query "page_size" "10") = Except.error e) :
    (GetHomeHandler views GetProducts c).2.statusCode = 500
      ∧ (GetHomeHandler views GetProducts c).2.body
          = Body.json [("error", Value.str "Failed to fetch products.")]
      ∧ (GetHomeHandler views GetProducts c).2.contentType = "application/json"
      ∧ (GetHomeHandler views GetProducts c).2.calls = c.calls ++
          [Call.GetProducts (c.Query "page" "1") (c.Query "page_size" "10"),
           Call.SetStatusCode 500,
           Call.JSON [("error", Value.str "Failed to fetch products.")]]
      ∧ (∀ document, (GetHomeHandler views GetProducts c).2.body ≠ Body.html document)
      ∧ (GetHomeHandler views GetProducts c).1 = none := by
  simp [GetHomeHandler, herr, Ctx.JSON, Ctx.SetStatusCode, Ctx.logGetProducts]

/-- A request `GET /?page=2` whose accessor fails. -/
theorem GetHomeHandler_accessor_error_witness :
    (GetHomeHandler (fun name _ _ => (Except.ok name : Except String String))
        (fun _ _ => (Except.error "connection refused" : Except String (List Nat)))
        (Ctx.ofQuery [("page", "2")])).2.statusCode = 500
      ∧ (GetHomeHandler (fun name _ _ => (Except.ok name : Except String String))
        (fun _ _ => (Except.error "connection refused" : Except String (List Nat)))
        (Ctx.ofQuery [("page", "2")])).2.body
          = Body.json [("error", Value.str "Failed to fetch products.")] := by
  have h := GetHomeHandler_accessor_error
    (fun name _ _ => (Except.ok name : Except String String))
    (fun _ _ => (Except.error "connection refused" : Except String (List Nat)))
    (Ctx.ofQuery [("page", "2")]) "connection refused" rfl
  exact ⟨h.1, h.2.1⟩

/-- C4, as stated, fails: on `GET /?page=` the parameter `page` is present with the
empty value, and the accessor is called with page `1`, not with the empty string. -/
theorem GetHomeHandler_query_present_empty :
    (Ctx.ofQuery [("page", "")] : Ctx Nat).queryArgs.lookup "page" = some ""
      ∧ accessorCalls (GetHomeHandler (fun name _ _ => (Except.ok name : Except String String))
          (fun _ _ => (Except.ok [] : Except String (List Nat)))
          (Ctx.ofQuery [("page", "")])).2.calls = [("1", "10")]
      ∧ accessorCalls (GetHomeHandler (fun name _ _ => (Except.ok name : Except String String))
          (fun _ _ => (Except.ok [] : Except String (List Nat)))
          (Ctx.ofQuery [("page", "")])).2.calls ≠ [("", "10")] := by
  decide

/-- C4 (amended): the handler calls the accessor exactly once, with `page` the value
of the query parameter `page` when it is present and not empty and `1` when it is
absent or empty, and `pageSize` the value of `page_size` when it is present and not
empty and `10` when it is absent or empty, each default applying on its own. -/
theorem GetHomeHandler_accessor_args {α ε ρ : Type} (views : Views α ρ)
    (GetProducts : String → String → Except ε (List α)) (c : Ctx α) :
    accessorCalls (GetHomeHandler views GetProducts c).2.calls = accessorCalls c.calls ++
      [(match c.queryArgs.lookup "page" with
          | some v => if v = "" then "1" else v
          | none => "1",
        match c.queryArgs.lookup "page_size" with
          | some v => if v = "" then "10" else v
          | none => "10")] := by
  have happ : ∀ (l : List (Call α)) (p n : String),
      accessorCalls (l ++ [Call.GetProducts p n]) = accessorCalls l ++ [(p, n)] := by
    intro l p n
    induction l with
    | nil => rfl
    | cons x xs ih => cases x <;> simp [accessorCalls, ih]
  have hsnoc : ∀ (l : List (Call α)) (x : Call α), (∀ p n, x ≠ Call.GetProducts p n) →
      accessorCalls (l ++ [x]) = accessorCalls l := by
    intro l x hx
    induction l with
    | nil => cases x <;> simp_all [accessorCalls]
    | cons y ys ih => cases y <;> simp [accessorCalls, ih]
  have hpage : c.Query "page" "1" = (match c.queryArgs.lookup "page" with
      | some v => if v = "" then "1" else v
      | none => "1") := by
    unfold Ctx.Query
    rw [defaultString_eq]
    cases c.queryArgs.lookup "page" <;> simp
  have hsize : c.Query "page_size" "10" = (match c.queryArgs.lookup "page_size" with
      | some v => if v = "" then "10" else v
      | none => "10") := by
    unfold Ctx.Query
    rw [defaultString_eq]
    cases c.queryArgs.lookup "page_size" <;> simp
  rw [← hpage, ← hsize]
  rcases hG : GetProducts (c.Query "page" "1") (c.Query "page_size" "10") with e | ps
  · simp only [GetHomeHandler, hG, Ctx.JSON, Ctx.SetStatusCode, Ctx.logGetProducts]
    rw [hsnoc _ (Call.JSON _) (by intro p n h; cases h),
      hsnoc _ (Call.SetStatusCode _) (by intro p n h; cases h), happ]
  · simp only [GetHomeHandler, hG, Ctx.Render, Ctx.logGetProducts]
    rcases views "index"
        [("Title", Value.str "Hello, World!"), ("Products", Value.products ps)]
        ["layouts/master"] with e | document
    · simp only
      rw [hsnoc _ (Call.Render _ _ _) (by intro p n h; cases h), happ]
    · simp only
      rw [hsnoc _ (Call.Render _ _ _) (by intro p n h; cases h), happ]

/-- C5: when the accessor succeeds with the list `ps`, the calls of the handler
after the accessor call are the single call `Render` of the view `index` inside the
layout `layouts/master` with the context made of `Title`, which is `Hello, World!`,
and `Products`, which is `ps` itself: the handler calls neither `SetStatusCode` nor
`JSON`. When the view engine yields a document, that document becomes the body with
content type `text/html; charset=utf-8`, the status code is left as it was and the
handler returns `nil`; when the engine fails, the handler returns that error and
leaves status code, content type and body as they were. -/
theorem GetHomeHandler_success {α ε ρ : Type} (views : Views α ρ)
    (GetProducts : String → String → Except ε (List α)) (c : Ctx α) (ps : List α)
    (hok : GetProducts (c.Query "page" "1") (c.Query "page_size" "10") = Except.ok ps) :
    (GetHomeHandler views GetProducts c).2.calls = c.calls ++
        [Call.GetProducts (c.Query "page" "1") (c.Query "page_size" "10"),
         Call.Render "index"
           [("Title", Value.str "Hello, World!"), ("Products", Value.products ps)]
           ["layouts/master"]]
      ∧ (∀ document,
          views "index"
              [("Title", Value.str "Hello, World!"), ("Products", Value.products ps)]
              ["layouts/master"] = Except.ok document →
            (GetHomeHandler views GetProducts c).1 = none
              ∧ (GetHomeHandler views GetProducts c).2.body = Body.html document
              ∧ (GetHomeHandler views GetProducts c).2.contentType = "text/html; charset=utf-8"
              ∧ (GetHomeHandler views GetProducts c).2.statusCode = c.statusCode)
      ∧ (∀ r,
          views "index"
              [("Title", Value.str "Hello, World!"), ("Products", Value.products ps)]
              ["layouts/master"] = Except.error r →
            (GetHomeHandler views GetProducts c).1 = some r
              ∧ (GetHomeHandler views GetProducts c).2.body = c.body
              ∧ (GetHomeHandler views GetProducts c).2.contentType = c.contentType
              ∧ (GetHomeHandler views GetProducts c).2.statusCode = c.statusCode)
      ∧ (∀ data, (GetHomeHandler views GetProducts c).2.body = Body.json data →
          c.body = Body.json data) := by
  rcases hV : views "index"
      [("Title", Value.str "Hello, World!"), ("Products", Value.products ps)]
      ["layouts/master"] with r | document
  · simp [GetHomeHandler, hok, Ctx.Render, Ctx.logGetProducts, hV]
  · simp [GetHomeHandler, hok, Ctx.Render, Ctx.logGetProducts, hV]

/-- A fresh request whose accessor returns three products: the handler calls the
accessor with the defaults and then `Render` with those three products; with an engine
that fails, the handler returns the engine's error. -/
theorem GetHomeHandler_success_witness :
    (GetHomeHandler (fun _ _ _ => (Except.error "template index not found" : Except String String))
        (fun _ _ => (Except.ok [7, 8, 9] : Except String (List Nat)))
        (Ctx.ofQuery [])).2.calls
        = [Call.GetProducts "1" "10",
           Call.Render "index"
             [("Title", Value.str "Hello, World!"), ("Products", Value.products [7, 8, 9])]
             ["layouts/master"]]
      ∧ (GetHomeHandler (fun _ _ _ => (Except.error "template index not found" : Except String String))
        (fun _ _ => (Except.ok [7, 8, 9] : Except String (List Nat)))
        (Ctx.ofQuery [])).1 = some "template index not found" := by
  have h := GetHomeHandler_success
    (fun _ _ _ => (Except.error "template index not found" : Except String String))
    (fun _ _ => (Except.ok [7, 8, 9] : Except String (List Nat))) (Ctx.ofQuery []) [7, 8, 9] rfl
  exact ⟨h.1, (h.2.2.1 "template index not found" rfl).1⟩

/-- C8: two runs on the same request whose accessors fail with the errors `e1` and
`e2` return the same value and leave the same request context; in particular the
status codes and the bodies of the two responses are the same. -/
theorem GetHomeHandler_error_independent {α ε ρ : Type} (views : Views α ρ)
    (G1 G2 : String → String → Except ε (List α)) (c : Ctx α) (e1 e2 : ε)
    (h1 : G1 (c.Query "page" "1") (c.Query "page_size" "10") = Except.error e1)
    (h2 : G2 (c.Query "page" "1") (c.Query "page_size" "10") = Except.error e2) :
    (GetHomeHandler views G1 c).2.statusCode = (GetHomeHandler views G2 c).2.statusCode
      ∧ (GetHomeHandler views G1 c).2.body = (GetHomeHandler views G2 c).2.body
      ∧ GetHomeHandler views G1 c = GetHomeHandler views G2 c := by
  have h : GetHomeHandler views G1 c = GetHomeHandler views G2 c := by
    simp [GetHomeHandler, h1, h2]
  exact ⟨by rw [h], by rw [h], h⟩

/-- Two different storage errors on `GET /?page=3`. -/
theorem GetHomeHandler_error_independent_witness :
    GetHomeHandler (fun name _ _ => (Except.ok name : Except String String))
        (fun _ _ => (Except.error "dial tcp: timeout" : Except String (List Nat)))
        (Ctx.ofQuery [("page", "3")])
      = GetHomeHandler (fun name _ _ => (Except.ok name : Except String String))
        (fun _ _ => (Except.error "SQL: no such table" : Except String (List Nat)))
        (Ctx.ofQuery [("page", "3")]) :=
  (GetHomeHandler_error_independent
    (fun name _ _ => (Except.ok name : Except String String))
    (fun _ _ => (Except.error "dial tcp: timeout" : Except String (List Nat)))
    (fun _ _ => (Except.error "SQL: no such table" : Except String (List Nat)))
    (Ctx.ofQuery [("page", "3")]) "dial tcp: timeout" "SQL: no such table" rfl rfl).2.2

/-- C10: on a request whose `page` and `page_size` denote the integers `p ≥ 1` and
`n ≥ 1` and on which the catalog accessor succeeds with the list `ps`, the handler
calls `Render` for the view `index` with `Products` equal to `ps`, whatever the view
engine then does, and `ps` has at most `n` products: it is the catalog offset by
`(p - 1) * n` and cut to `n`. -/
theorem GetHomeHandler_page_bound {α ρ : Type} (views : Views α ρ)
    (store : Option (List α)) (c : Ctx α) (p n : Nat) (ps : List α)
    (hp : parseNat (c.Query "page" "1") = some p)
    (hn : parseNat (c.Query "page_size" "10") = some n)
    (hp1 : 1 ≤ p) (hn1 : 1 ≤ n)
    (hok : GetProducts store (c.Query "page" "1") (c.Query "page_size" "10") = Except.ok ps) :
    (GetHomeHandler views (GetProducts store) c).2.calls = c.calls ++
        [Call.GetProducts (c.Query "page" "1") (c.Query "page_size" "10"),
         Call.Render "index"
           [("Title", Value.str "Hello, World!"), ("Products", Value.products ps)]
           ["layouts/master"]]
      ∧ ps.length ≤ n
      ∧ ∃ catalog, store = some catalog ∧ ps = (catalog.drop ((p - 1) * n)).take n := by
  have hcalls : (GetHomeHandler views (GetProducts store) c).2.calls = c.calls ++
      [Call.GetProducts (c.Query "page" "1") (c.Query "page_size" "10"),
       Call.Render "index"
         [("Title", Value.str "Hello, World!"), ("Products", Value.products ps)]
         ["layouts/master"]] := by
    rcases hV : views "index"
        [("Title", Value.str "Hello, World!"), ("Products", Value.products ps)]
        ["layouts/master"] with r | document
    · simp [GetHomeHandler, hok, Ctx.Render, Ctx.logGetProducts, hV]
    · simp [GetHomeHandler, hok, Ctx.Render, Ctx.logGetProducts, hV]
  have hne : ¬ (p = 0 ∨ n = 0) := by omega
  unfold GetProducts at hok
  rw [hp, hn] at hok
  simp only [hne, if_false] at hok
  cases store with
  | none => cases hok
  | some catalog =>
    have hps : ps = (catalog.drop ((p - 1) * n)).take n := by
      cases hok
      rfl
    refine ⟨hcalls, ?_, catalog, rfl, hps⟩
    rw [hps]
    exact List.length_take_le _ _

/-- The request `GET /?page=2&page_size=5` over a catalog of the twelve products
1 to 12 passes the products 6 to 10 to `Render`, here with an engine that fails. -/
theorem GetHomeHandler_page_bound_witness :
    (GetHomeHandler (fun _ _ _ => (Except.error "template index not found" : Except String String))
        (GetProducts (some [1, 2, 3, 4, 5, 6, 7, 8, 9, 10, 11, 12]))
        (Ctx.ofQuery [("page", "2"), ("page_size", "5")])).2.calls
        = [Call.GetProducts "2" "5",
           Call.Render "index"
             [("Title", Value.str "Hello, World!"), ("Products", Value.products [6, 7, 8, 9, 10])]
             ["layouts/master"]]
      ∧ [6, 7, 8, 9, 10].length ≤ 5 := by
  have h := GetHomeHandler_page_bound
    (fun _ _ _ => (Except.error "template index not found" : Except String String))
    (some [1, 2, 3, 4, 5, 6, 7, 8, 9, 10, 11, 12])
    (Ctx.ofQuery [("page", "2"), ("page_size", "5")]) 2 5 [6, 7, 8, 9, 10]
    (by decide) (by decide) (by decide) (by decide) rfl
  exact ⟨h.1, h.2.1⟩

/-! ## The bootstrap -/

/-- C6: in a run that reaches `app.Listen`, the address listened on is `:` followed
by the value of `PORT` when that value is not empty, and `:3000` when `PORT` is unset
or empty. -/
theorem main_listen_addr {σ ε : Type} (env : String → Option String)
    (impl : Model → modelType σ ε) (w : World σ) (hseed : (Seed impl w).1 = none) :
    (∀ v, env "PORT" = some v → v ≠ "" →
        listenCalls (main env impl w).1 = [":" ++ v])
      ∧ (env "PORT" = none ∨ env "PORT" = some "" →
        listenCalls (main env impl w).1 = [":3000"]) := by
  rcases hS : Seed impl w with ⟨r, w1⟩
  rw [hS] at hseed
  simp only at hseed
  subst hseed
  constructor
  · intro v hv hne
    simp [main, hS, Getenv, hv, hne, listenCalls]
  · intro h
    rcases h with h | h
    · simp [main, hS, Getenv, h, listenCalls]
    · simp [main, hS, Getenv, h, listenCalls]

/-- With `PORT=8080` the address is `:8080`; with `PORT` unset it is `:3000`. -/
theorem main_listen_addr_witness :
    listenCalls (main (fun k => if k = "PORT" then some "8080" else none)
        (fun (_ : Model) (s : Nat) => ((none : Option String), s + 1)) ⟨0, []⟩).1 = [":8080"]
      ∧ listenCalls (main (fun _ => none)
        (fun (_ : Model) (s : Nat) => ((none : Option String), s + 1)) ⟨0, []⟩).1 = [":3000"] :=
  ⟨(main_listen_addr (fun k => if k = "PORT" then some "8080" else none)
      (fun (_ : Model) (s : Nat) => ((none : Option String), s + 1)) ⟨0, []⟩ (by decide)).1
      "8080" (by decide) (by decide),
   (main_listen_addr (fun _ => none)
      (fun (_ : Model) (s : Nat) => ((none : Option String), s + 1)) ⟨0, []⟩ (by decide)).2
      (Or.inl rfl)⟩

/-- C7: every run of `main` calls `Seed` exactly once and ends in the state `Seed`
left. A run that calls `app.Listen` does so after the call of `Seed`, which returned
no error. When `Seed` returns the error `e`, the run is `New`, `Use`, `Seed`,
`Panic e`: no route is registered and `app.Listen` is not called. -/
theorem main_seed_before_listen {σ ε : Type} (env : String → Option String)
    (impl : Model → modelType σ ε) (w : World σ) :
    seedCalls (main env impl w).1 = 1
      ∧ (main env impl w).2 = (Seed impl w).2
      ∧ (∀ addr, Step.Listen addr ∈ (main env impl w).1 →
          (Seed impl w).1 = none
            ∧ ∃ pre post, (main env impl w).1 = pre ++ Step.Seed :: post
                ∧ Step.Listen addr ∈ post ∧ listenCalls pre = [] ∧ seedCalls pre = 0)
      ∧ (∀ e, (Seed impl w).1 = some e →
          (main env impl w).1 = [Step.New, Step.Use "logger", Step.Seed, Step.Panic e]
            ∧ routes (main env impl w).1 = []
            ∧ listenCalls (main env impl w).1 = [])
      ∧ ((Seed impl w).1 = none → (listenCalls (main env impl w).1).length = 1) := by
  rcases hS : Seed impl w with ⟨r, w1⟩
  cases r with
  | some err =>
    refine ⟨by simp [main, hS, seedCalls], by simp [main, hS], ?_, ?_, by simp⟩
    · intro addr h
      simp [main, hS] at h
    · intro e he
      simp only [Option.some.injEq] at he
      subst he
      simp [main, hS, routes, listenCalls]
  | none =>
    refine ⟨by simp [main, hS, seedCalls], by simp [main, hS], ?_, by simp,
      by simp [main, hS, listenCalls]⟩
    intro addr h
    refine ⟨rfl, [Step.New, Step.Use "logger"],
      [Step.Static "/" "resources", Step.Get "/" homeIndexHandler,
       Step.Get "/products" productIndexHandler,
       Step.Listen (":" ++ if Getenv env "PORT" = "" then "3000" else Getenv env "PORT")],
      ?_, ?_, rfl, rfl⟩
    · simp only [main, hS]
    · simp only [main, hS, List.mem_append, List.mem_cons, List.mem_singleton] at h
      simp only [List.mem_cons, List.mem_singleton]
      rcases h with h | h
      · rcases h with h | h | h <;> simp at h
      · rcases h with h | h
        · cases h
        · exact h

/-- The Company seeder fails: the run panics with that error after one call of
`Seed`, and the listener is not started. -/
theorem main_seed_before_listen_witness :
    (main (fun _ => none)
        (fun (m : Model) (s : Nat) => (if m = Model.company then some "boom" else none, s + 1))
        ⟨0, []⟩).1 = [Step.New, Step.Use "logger", Step.Seed, Step.Panic "boom"] :=
  ((main_seed_before_listen (fun _ => none)
      (fun (m : Model) (s : Nat) => (if m = Model.company then some "boom" else none, s + 1))
      ⟨0, []⟩).2.2.2.1 "boom" (by decide)).1

/-- C9: in a run with every seeder succeeding, the route table is `GET /` bound to
`home.IndexHandler` and `GET /products` bound to `productRoutes.IndexHandler`.
Package `home` declares `GetHomeHandler` only, so the handler named for `GET /` is
not `GetHomeHandler` and is not declared by the package at all. -/
theorem main_home_route_is_IndexHandler :
    routes (main (fun _ => none)
        (fun (_ : Model) (s : Nat) => ((none : Option String), s + 1)) ⟨0, []⟩).1
        = [("GET", "/", ⟨"handlers/home", "IndexHandler"⟩),
           ("GET", "/products", ⟨"handlers/product", "IndexHandler"⟩)]
      ∧ routes (main (fun _ => none)
        (fun (_ : Model) (s : Nat) => ((none : Option String), s + 1)) ⟨0, []⟩).1
        ≠ [("GET", "/", ⟨"handlers/home", "GetHomeHandler"⟩),
           ("GET", "/products", ⟨"handlers/product", "IndexHandler"⟩)]
      ∧ homeDecls = ["GetHomeHandler"]
      ∧ homeIndexHandler.name ∉ homeDecls := by
  decide

end GoEcommerce
